import Mathlib

/-!
Shallow embedding of the QR-based printing system (`app.py`, `config.py`,
`scanner_print.py`) and proofs about its job-token lifecycle, authentication
and upload handling.

The sqlite `jobs` table is modelled as a `List Job` in insertion order; each
SQL statement of the source is translated row-by-row (`SELECT ... WHERE
token=?` becomes `List.find?`, `UPDATE ... WHERE token=?` becomes a `List.map`
that rewrites the matching rows).  Wall-clock time (`time.time()`) is passed
explicitly as a `Nat` parameter, and the opaque password-hash check
(`werkzeug.security.check_password_hash`) is an abstract function parameter.
-/

namespace QRPrint

/-- Configuration from `config.py`: `TOKEN_EXPIRY = 24 * 3600`. -/
def TOKEN_EXPIRY : Nat := 24 * 3600

/-- Configuration from `config.py`: allowed upload extensions. -/
def ALLOWED_EXTENSIONS : List String := ["pdf", "png", "jpg", "jpeg"]

/-- Configuration from `config.py`: `SIMULATE_PAYMENT = True`. -/
def SIMULATE_PAYMENT : Bool := true

/-- One row of the `jobs` table (`init_db` in `app.py`).  `paid` and
`printed` are `INTEGER DEFAULT 0` columns used as booleans. -/
structure Job where
  token : String
  filename : String
  filepath : String
  uploaded_at : Nat
  paid : Bool
  printed : Bool
  expires_at : Nat
  owner_username : Option String
deriving Repr, DecidableEq

/-- `SELECT ... FROM jobs WHERE token=?` followed by `fetchone()`: the first
row whose `token` column equals the argument. -/
def getJob (db : List Job) (t : String) : Option Job :=
  db.find? (fun j => j.token == t)

/-- `create_job_entry` (`app.py`): INSERT a fresh row with
`paid = 0`, `printed = 0`, `expires_at = uploaded_at + TOKEN_EXPIRY`.
The generated token and the current time are explicit parameters. -/
def create_job_entry (db : List Job) (token filename filepath : String)
    (now : Nat) (owner : Option String) : List Job :=
  db ++ [{ token := token, filename := filename, filepath := filepath,
           uploaded_at := now, paid := false, printed := false,
           expires_at := now + TOKEN_EXPIRY, owner_username := owner }]

/-- `mark_paid` (`app.py`): `UPDATE jobs SET paid=1 WHERE token=?`. -/
def mark_paid (db : List Job) (t : String) : List Job :=
  db.map (fun j => if j.token == t then { j with paid := true } else j)

/-- `mark_printed_db` (`app.py`): `UPDATE jobs SET printed=1 WHERE token=?`. -/
def mark_printed_db (db : List Job) (t : String) : List Job :=
  db.map (fun j => if j.token == t then { j with printed := true } else j)

/-- Outcome of `file_by_token` (`app.py`), i.e. the JSON body returned by
`GET /file_by_token/<token>`. -/
inductive ResolveResult where
  | notFound
  | expired
  | notPaid
  | alreadyPrinted
  | ok (filepath : String)
deriving Repr, DecidableEq

/-- HTTP status code attached to each `file_by_token` outcome in `app.py`. -/
def resolveStatus : ResolveResult → Nat
  | .notFound => 404
  | .expired => 403
  | .notPaid => 402
  | .alreadyPrinted => 409
  | .ok _ => 200

/-- `file_by_token` (`app.py` route `GET /file_by_token/<token>`): SELECT the
row, then test, in order: missing row, `now > expires_at`, `not paid`,
`printed`; otherwise return the stored filepath. -/
def file_by_token (db : List Job) (t : String) (now : Nat) : ResolveResult :=
  match getJob db t with
  | none => .notFound
  | some j =>
    if now > j.expires_at then .expired
    else if !j.paid then .notPaid
    else if j.printed then .alreadyPrinted
    else .ok j.filepath

/-- Flask session contents relevant to these routes (`session['user']`,
`session['is_admin']`). -/
structure Session where
  user : Option String
  is_admin : Option Bool
deriving Repr, DecidableEq

/-- An anonymous (not logged-in) session. -/
def anonSession : Session := { user := none, is_admin := none }

/-- A JSON-ish HTTP response: status code plus key/value body. -/
structure ApiResponse where
  status : Nat
  body : List (String × String)
deriving Repr, DecidableEq

/-- Route `POST /simulate_pay/<token>` (`app.py`): calls `mark_paid` and
returns `{"status": "ok", "token": token}` with HTTP 200.  The handler never
reads the session.  (The `except` branch models only sqlite exceptions, which
the pure store cannot raise.) -/
def simulate_pay (db : List Job) (t : String) (_sess : Session) :
    List Job × ApiResponse :=
  (mark_paid db t, { status := 200, body := [("status", "ok"), ("token", t)] })

/-- Route `POST /mark_printed/<token>` (`app.py`): calls `mark_printed_db` and
returns `{"status": "ok"}` with HTTP 200.  The handler never reads the
session. -/
def mark_printed (db : List Job) (t : String) (_sess : Session) :
    List Job × ApiResponse :=
  (mark_printed_db db t, { status := 200, body := [("status", "ok")] })

/-- Route `GET /file_by_token/<token>` as a store transformer: the handler
only runs a SELECT, so the store component is returned as received. -/
def file_by_token_route (db : List Job) (t : String) (now : Nat)
    (_sess : Session) : List Job × ResolveResult :=
  (db, file_by_token db t now)

/-- The two mutating lifecycle calls a client can issue on an existing token
(`POST /simulate_pay/<token>` and `POST /mark_printed/<token>`). -/
inductive JobOp where
  | pay
  | print
deriving Repr, DecidableEq

/-- Apply one lifecycle call for token `t` to the store. -/
def applyOp (db : List Job) (t : String) : JobOp → List Job
  | .pay => mark_paid db t
  | .print => mark_printed_db db t

/-- Apply a sequence of lifecycle calls for token `t`, oldest first. -/
def applyOps (db : List Job) (t : String) (ops : List JobOp) : List Job :=
  ops.foldl (fun d o => applyOp d t o) db

section StoreLemmas

theorem getJob_mark_paid (db : List Job) (t : String) :
    getJob (mark_paid db t) t
      = (getJob db t).map (fun j => { j with paid := true }) := by
  induction db with
  | nil => rfl
  | cons j rest ih =>
    by_cases h : j.token == t
    · simp [getJob, mark_paid, List.find?, h]
    · simpa [getJob, mark_paid, List.find?, h] using ih

theorem getJob_mark_printed (db : List Job) (t : String) :
    getJob (mark_printed_db db t) t
      = (getJob db t).map (fun j => { j with printed := true }) := by
  induction db with
  | nil => rfl
  | cons j rest ih =>
    by_cases h : j.token == t
    · simp [getJob, mark_printed_db, List.find?, h]
    · simpa [getJob, mark_printed_db, List.find?, h] using ih

theorem mark_paid_of_absent (db : List Job) (t : String)
    (h : getJob db t = none) : mark_paid db t = db := by
  have hall := (List.find?_eq_none.mp h : ∀ x ∈ db, ¬(x.token == t) = true)
  unfold mark_paid
  rw [List.map_congr_left (fun j hj => by rw [if_neg (hall j hj)]),
    List.map_id']

theorem mark_printed_of_absent (db : List Job) (t : String)
    (h : getJob db t = none) : mark_printed_db db t = db := by
  have hall := (List.find?_eq_none.mp h : ∀ x ∈ db, ¬(x.token == t) = true)
  unfold mark_printed_db
  rw [List.map_congr_left (fun j hj => by rw [if_neg (hall j hj)]),
    List.map_id']

theorem getJob_append_absent (db1 db2 : List Job) (t : String)
    (h : getJob db1 t = none) :
    getJob (db1 ++ db2) t = getJob db2 t := by
  unfold getJob at h ⊢
  rw [List.find?_append, h, Option.none_or]

theorem getJob_create (db : List Job) (token filename filepath : String)
    (now : Nat) (owner : Option String) (h : getJob db token = none) :
    getJob (create_job_entry db token filename filepath now owner) token
      = some { token := token, filename := filename, filepath := filepath,
               uploaded_at := now, paid := false, printed := false,
               expires_at := now + TOKEN_EXPIRY, owner_username := owner } := by
  rw [create_job_entry, getJob_append_absent _ _ _ h]
  simp [getJob, List.find?]

theorem getJob_applyOps (ops : List JobOp) (db : List Job) (t : String)
    (j : Job) (h : getJob db t = some j) :
    getJob (applyOps db t ops) t
      = some { j with paid := j.paid || ops.contains .pay,
                      printed := j.printed || ops.contains .print } := by
  induction ops generalizing db j with
  | nil => simpa [applyOps] using h
  | cons o rest ih =>
    cases o with
    | pay =>
      have step : getJob (mark_paid db t) t = some { j with paid := true } := by
        rw [getJob_mark_paid, h]; rfl
      have := ih (mark_paid db t) { j with paid := true } step
      simpa [applyOps, applyOp, List.contains_cons] using this
    | print =>
      have step : getJob (mark_printed_db db t) t
          = some { j with printed := true } := by
        rw [getJob_mark_printed, h]; rfl
      have := ih (mark_printed_db db t) { j with printed := true } step
      simpa [applyOps, applyOp, List.contains_cons] using this

end StoreLemmas

section SampleJobs

/-- An unpaid, unprinted sample job expiring at time 100. -/
def jUnpaid : Job :=
  { token := "tA", filename := "a.pdf", filepath := "/up/a.pdf",
    uploaded_at := 0, paid := false, printed := false, expires_at := 100,
    owner_username := none }

/-- A paid, unprinted sample job expiring at time 100. -/
def jPaid : Job :=
  { token := "tB", filename := "b.pdf", filepath := "/up/b.pdf",
    uploaded_at := 0, paid := true, printed := false, expires_at := 100,
    owner_username := some "alice" }

/-- A paid and already printed sample job expiring at time 100. -/
def jPrinted : Job :=
  { token := "tC", filename := "c.pdf", filepath := "/up/c.pdf",
    uploaded_at := 0, paid := true, printed := true, expires_at := 100,
    owner_username := some "alice" }

end SampleJobs

/-- C1: `file_by_token` evaluates its checks in the fixed order not-found,
expired, not-paid, already-printed; each failure maps to its distinct status
(404 unknown token, 403 once `now` exceeds `expires_at` regardless of the
other flags, 402 unpaid, 409 printed) and success returns 200 with the stored
file path. -/
theorem c1_resolve_order_and_statuses (db : List Job) (t : String) (now : Nat) :
    (getJob db t = none → file_by_token db t now = ResolveResult.notFound) ∧
    (∀ j, getJob db t = some j → j.expires_at < now →
      file_by_token db t now = ResolveResult.expired) ∧
    (∀ j, getJob db t = some j → now ≤ j.expires_at → j.paid = false →
      file_by_token db t now = ResolveResult.notPaid) ∧
    (∀ j, getJob db t = some j → now ≤ j.expires_at → j.paid = true →
      j.printed = true → file_by_token db t now = ResolveResult.alreadyPrinted) ∧
    (∀ j, getJob db t = some j → now ≤ j.expires_at → j.paid = true →
      j.printed = false → file_by_token db t now = ResolveResult.ok j.filepath) ∧
    resolveStatus ResolveResult.notFound = 404 ∧
    resolveStatus ResolveResult.expired = 403 ∧
    resolveStatus ResolveResult.notPaid = 402 ∧
    resolveStatus ResolveResult.alreadyPrinted = 409 ∧
    (∀ p, resolveStatus (ResolveResult.ok p) = 200) := by
  refine ⟨?_, ?_, ?_, ?_, ?_, rfl, rfl, rfl, rfl, fun _ => rfl⟩
  · intro h
    simp [file_by_token, h]
  · intro j hj hlt
    simp [file_by_token, hj, hlt]
  · intro j hj hle hpaid
    simp [file_by_token, hj, Nat.not_lt.mpr hle, hpaid]
  · intro j hj hle hpaid hpr
    simp [file_by_token, hj, Nat.not_lt.mpr hle, hpaid, hpr]
  · intro j hj hle hpaid hpr
    simp [file_by_token, hj, Nat.not_lt.mpr hle, hpaid, hpr]

/-- Witness for C1: each branch exercised on a concrete store. -/
theorem c1_witness :
    file_by_token [] "t" 0 = ResolveResult.notFound ∧
    file_by_token [jUnpaid] "tA" 101 = ResolveResult.expired ∧
    file_by_token [jUnpaid] "tA" 100 = ResolveResult.notPaid ∧
    file_by_token [jPrinted] "tC" 50 = ResolveResult.alreadyPrinted ∧
    file_by_token [jPaid] "tB" 50 = ResolveResult.ok "/up/b.pdf" :=
  ⟨(c1_resolve_order_and_statuses [] "t" 0).1 rfl,
   (c1_resolve_order_and_statuses [jUnpaid] "tA" 101).2.1 jUnpaid
     (by decide) (by decide),
   (c1_resolve_order_and_statuses [jUnpaid] "tA" 100).2.2.1 jUnpaid
     (by decide) (by decide) rfl,
   (c1_resolve_order_and_statuses [jPrinted] "tC" 50).2.2.2.1 jPrinted
     (by decide) (by decide) rfl rfl,
   (c1_resolve_order_and_statuses [jPaid] "tB" 50).2.2.2.2.1 jPaid
     (by decide) (by decide) rfl rfl⟩

/-- C2 counterexample: starting from the reachable store holding one freshly
created (hence unpaid) job, the `mark_printed` operation sets `printed` to
true even though `paid` is false at the moment of the transition — refuting
the claim that `printed` can only become true when `paid` holds. -/
theorem c2_counterexample :
    (getJob (create_job_entry [] "t1" "doc.pdf" "/up/doc.pdf" 0 none)
        "t1").map Job.paid = some false ∧
    (getJob (mark_printed_db
        (create_job_entry [] "t1" "doc.pdf" "/up/doc.pdf" 0 none) "t1")
        "t1").map Job.printed = some true := by decide

/-- C2 (amended): `mark_printed_db` sets the `printed` flag of the stored job
unconditionally — it checks neither `paid` nor `expires_at`; the paid/expiry
conditions are enforced only by `file_by_token`, which refuses to release the
file path, not at the printed transition itself. -/
theorem c2_mark_printed_unconditional (db : List Job) (t : String) (j : Job)
    (h : getJob db t = some j) :
    getJob (mark_printed_db db t) t = some { j with printed := true } := by
  rw [getJob_mark_printed, h]
  rfl

/-- Witness for the amended C2 on a concrete unpaid job. -/
theorem c2_witness :
    getJob (mark_printed_db [jUnpaid] "tA") "tA"
      = some { jUnpaid with printed := true } :=
  c2_mark_printed_unconditional [jUnpaid] "tA" jUnpaid (by decide)

/-- C3 counterexample: on a token absent from the store, both
`POST /simulate_pay/<token>` and `POST /mark_printed/<token>` report the
generic success response (HTTP 200, status "ok") and leave the store
unchanged — they never produce a NotFound outcome. -/
theorem c3_counterexample :
    (simulate_pay [] "nosuchtoken" anonSession).2.status = 200 ∧
    (simulate_pay [] "nosuchtoken" anonSession).2.body
      = [("status", "ok"), ("token", "nosuchtoken")] ∧
    (simulate_pay [] "nosuchtoken" anonSession).1 = [] ∧
    (mark_printed [] "nosuchtoken" anonSession).2.status = 200 ∧
    (mark_printed [] "nosuchtoken" anonSession).2.body = [("status", "ok")] ∧
    (mark_printed [] "nosuchtoken" anonSession).1 = [] := by decide

/-- C3 (amended): for every token not present in the store, `mark_paid` and
`mark_printed` are silent no-ops: the store is unchanged and the response is
the same generic HTTP 200 success returned for existing tokens. -/
theorem c3_unknown_token_silent_noop (db : List Job) (t : String)
    (s : Session) (h : getJob db t = none) :
    simulate_pay db t s
      = (db, { status := 200, body := [("status", "ok"), ("token", t)] }) ∧
    mark_printed db t s
      = (db, { status := 200, body := [("status", "ok")] }) := by
  constructor
  · simp [simulate_pay, mark_paid_of_absent db t h]
  · simp [mark_printed, mark_printed_of_absent db t h]

/-- Witness for the amended C3 on a concrete empty store. -/
theorem c3_witness :
    simulate_pay [] "ghost" anonSession
      = ([], { status := 200, body := [("status", "ok"), ("token", "ghost")] }) ∧
    mark_printed [] "ghost" anonSession
      = ([], { status := 200, body := [("status", "ok")] }) :=
  c3_unknown_token_silent_noop [] "ghost" anonSession rfl

/-- C4 counterexample: a token from a valid upload that was paid and then
printed no longer resolves, even though `mark_paid` has been called and the
current time (10) is before `expires_at` (86400) — refuting the stated
if-and-only-if. -/
theorem c4_counterexample :
    (10 : Nat) < 0 + TOKEN_EXPIRY ∧
    file_by_token (applyOps (create_job_entry [] "t1" "doc.pdf" "/up/doc.pdf"
        0 (some "alice")) "t1" [JobOp.pay, JobOp.print]) "t1" 10
      = ResolveResult.alreadyPrinted := by decide

/-- C4 (amended): for a token minted by a valid upload into a store not
already containing it, and any sequence of pay/print calls on that token,
resolve succeeds (returns the stored path) iff `mark_paid` has been called,
`mark_printed` has not been called, and the current time is at most
`expires_at` (at the boundary instant `now = expires_at` resolution still
succeeds). -/
theorem c4_resolve_success_characterisation (db : List Job)
    (t f p : String) (now0 now : Nat) (owner : Option String)
    (ops : List JobOp) (hfresh : getJob db t = none) :
    file_by_token (applyOps (create_job_entry db t f p now0 owner) t ops) t now
        = ResolveResult.ok p
      ↔ (JobOp.pay ∈ ops ∧ JobOp.print ∉ ops ∧ now ≤ now0 + TOKEN_EXPIRY) := by
  have h0 := getJob_create db t f p now0 owner hfresh
  have h1 := getJob_applyOps ops _ t _ h0
  simp only [Bool.false_or] at h1
  simp only [file_by_token, h1]
  by_cases hexp : now0 + TOKEN_EXPIRY < now
  · rw [if_pos hexp]
    simp [Nat.not_le.mpr hexp]
  · rw [if_neg hexp]
    by_cases hpay : JobOp.pay ∈ ops
    · have hc : ops.contains JobOp.pay = true := List.elem_iff.mpr hpay
      by_cases hpr : JobOp.print ∈ ops
      · have hcp : ops.contains JobOp.print = true := List.elem_iff.mpr hpr
        simp [hc, hcp, hpr, hpay]
      · have hcp : ops.contains JobOp.print = false := by
          cases hcon : ops.contains JobOp.print with
          | false => rfl
          | true => exact absurd (List.elem_iff.mp hcon) hpr
        simp [hc, hcp, hpay, hpr, Nat.not_lt.mp hexp]
    · have hc : ops.contains JobOp.pay = false := by
        cases hcon : ops.contains JobOp.pay with
        | false => rfl
        | true => exact absurd (List.elem_iff.mp hcon) hpay
      simp [hc, hpay]

/-- Witness for the amended C4: a fresh upload that is paid only resolves
while the clock has not passed `expires_at`. -/
theorem c4_witness :
    (file_by_token (applyOps (create_job_entry [] "t2" "b.pdf" "/up/b.pdf"
        5 none) "t2" [JobOp.pay]) "t2" 50 = ResolveResult.ok "/up/b.pdf"
      ↔ (JobOp.pay ∈ [JobOp.pay] ∧ JobOp.print ∉ [JobOp.pay] ∧
          (50 : Nat) ≤ 5 + TOKEN_EXPIRY)) :=
  c4_resolve_success_characterisation [] "t2" "b.pdf" "/up/b.pdf" 5 50 none
    [JobOp.pay] rfl

theorem mark_paid_idem (db : List Job) (t : String) :
    mark_paid (mark_paid db t) t = mark_paid db t := by
  unfold mark_paid
  rw [List.map_map]
  apply List.map_congr_left
  intro j _
  by_cases h : j.token == t
  · simp [Function.comp, h]
  · simp [Function.comp, h]

theorem mark_printed_idem (db : List Job) (t : String) :
    mark_printed_db (mark_printed_db db t) t = mark_printed_db db t := by
  unfold mark_printed_db
  rw [List.map_map]
  apply List.map_congr_left
  intro j _
  by_cases h : j.token == t
  · simp [Function.comp, h]
  · simp [Function.comp, h]

/-- C5: for a token present in the store, `mark_paid` and `mark_printed` are
idempotent: a second call leaves the store exactly as after the first, and
the second HTTP call still reports the generic 200 success, not an error. -/
theorem c5_pay_print_idempotent (db : List Job) (t : String) (s : Session)
    (h : (getJob db t).isSome = true) :
    mark_paid (mark_paid db t) t = mark_paid db t ∧
    mark_printed_db (mark_printed_db db t) t = mark_printed_db db t ∧
    (simulate_pay (simulate_pay db t s).1 t s).1 = (simulate_pay db t s).1 ∧
    (simulate_pay (simulate_pay db t s).1 t s).2.status = 200 ∧
    (mark_printed (mark_printed db t s).1 t s).1 = (mark_printed db t s).1 ∧
    (mark_printed (mark_printed db t s).1 t s).2.status = 200 :=
  ⟨mark_paid_idem db t, mark_printed_idem db t, mark_paid_idem db t, rfl,
    mark_printed_idem db t, rfl⟩

/-- Witness for C5 on a concrete one-job store. -/
theorem c5_witness :
    mark_paid (mark_paid [jUnpaid] "tA") "tA" = mark_paid [jUnpaid] "tA" ∧
    mark_printed_db (mark_printed_db [jUnpaid] "tA") "tA"
      = mark_printed_db [jUnpaid] "tA" ∧
    (simulate_pay (simulate_pay [jUnpaid] "tA" anonSession).1 "tA"
        anonSession).1 = (simulate_pay [jUnpaid] "tA" anonSession).1 ∧
    (simulate_pay (simulate_pay [jUnpaid] "tA" anonSession).1 "tA"
        anonSession).2.status = 200 ∧
    (mark_printed (mark_printed [jUnpaid] "tA" anonSession).1 "tA"
        anonSession).1 = (mark_printed [jUnpaid] "tA" anonSession).1 ∧
    (mark_printed (mark_printed [jUnpaid] "tA" anonSession).1 "tA"
        anonSession).2.status = 200 :=
  c5_pay_print_idempotent [jUnpaid] "tA" anonSession (by decide)

/-- C6: the resolve route `GET /file_by_token/<token>` is a pure read: the
store it returns is exactly the input store, so no field of any job record
(the `printed` flag included) is modified, on success and failure alike. -/
theorem c6_resolve_is_pure_read (db : List Job) (t : String) (now : Nat)
    (s : Session) :
    (file_by_token_route db t now s).1 = db ∧
    (∀ t2, getJob (file_by_token_route db t now s).1 t2 = getJob db t2) ∧
    (file_by_token_route db t now s).2 = file_by_token db t now :=
  ⟨rfl, fun _ => rfl, rfl⟩

/-- C10: `POST /simulate_pay/<token>` and `POST /mark_printed/<token>` never
read the session: any two callers — logged in or not — observe the identical
response and cause the identical store mutation for the same token. -/
theorem c10_pay_print_ignore_session (db : List Job) (t : String)
    (s1 s2 : Session) :
    simulate_pay db t s1 = simulate_pay db t s2 ∧
    mark_printed db t s1 = mark_printed db t s2 :=
  ⟨rfl, rfl⟩

/-- One row of the `users` table (`init_db` in `app.py`): username, stored
password hash, admin flag. -/
structure User where
  username : String
  password : String
  is_admin : Bool
deriving Repr, DecidableEq

/-- `SELECT password, is_admin FROM users WHERE username=?` + `fetchone()`. -/
def getUser (users : List User) (u : String) : Option User :=
  users.find? (fun r => r.username == u)

/-- The redirect target produced by a login POST in `app.py`. -/
inductive Redirect where
  | userLogin (nextParam : String)
  | adminLogin (nextParam : String)
  | adminLoginPlain
  | path (p : String)
  | adminPage
  | myjobsPage
deriving Repr, DecidableEq

/-- Caller-observable outcome of a login POST: flash message, redirect, and
the session assignments performed. -/
structure LoginOutcome where
  flash : Option String
  redirect : Redirect
  sessionUser : Option String
  sessionAdmin : Option Bool
deriving Repr, DecidableEq

/-- `user_login` POST branch (`app.py` route `/login`); `username` stands for
the already-stripped form field `request.form.get('username','').strip()`.
It rejects missing fields, looks the user up, reports the same
"Invalid username or password" flash whether the row is missing or the hash
check fails, and on success stores the session and picks the redirect. The
opaque `check_password_hash` is the `checkHash` parameter. -/
def user_login (users : List User) (checkHash : String → String → Bool)
    (username password nextParam : String) : LoginOutcome :=
  if username = "" ∨ password = "" then
    { flash := some "Missing username or password",
      redirect := .userLogin nextParam, sessionUser := none,
      sessionAdmin := none }
  else
    match getUser users username with
    | none =>
      { flash := some "Invalid username or password",
        redirect := .userLogin nextParam, sessionUser := none,
        sessionAdmin := none }
    | some row =>
      if checkHash row.password password then
        { flash := none,
          redirect :=
            if (nextParam != "")
                && (!(nextParam.startsWith "/admin") || row.is_admin) then
              .path nextParam
            else if row.is_admin then .adminPage else .myjobsPage,
          sessionUser := some username,
          sessionAdmin := some row.is_admin }
      else
        { flash := some "Invalid username or password",
          redirect := .userLogin nextParam, sessionUser := none,
          sessionAdmin := none }

/-- `admin_login` POST branch (`app.py` route `/admin/login`): like
`user_login`, but before checking the password it rejects accounts whose
`is_admin` flag is unset with a distinct flash and a redirect carrying no
`next` parameter. -/
def admin_login (users : List User) (checkHash : String → String → Bool)
    (username password nextParam : String) : LoginOutcome :=
  if username = "" ∨ password = "" then
    { flash := some "Missing username or password",
      redirect := .adminLogin nextParam, sessionUser := none,
      sessionAdmin := none }
  else
    match getUser users username with
    | none =>
      { flash := some "Invalid username or password",
        redirect := .adminLogin nextParam, sessionUser := none,
        sessionAdmin := none }
    | some row =>
      if !row.is_admin then
        { flash := some "This account does not have admin access.",
          redirect := .adminLoginPlain, sessionUser := none,
          sessionAdmin := none }
      else if checkHash row.password password then
        { flash := none,
          redirect :=
            if (nextParam != "") && nextParam.startsWith "/admin" then
              .path nextParam
            else .adminPage,
          sessionUser := some username, sessionAdmin := some true }
      else
        { flash := some "Invalid username or password",
          redirect := .adminLogin nextParam, sessionUser := none,
          sessionAdmin := none }

/-- A hash check under which the submitted password matches no stored hash
(the wrong-password scenario). -/
def rejectAllHash : String → String → Bool := fun _ _ => false

/-- A sample non-admin account. -/
def uCarol : User := { username := "carol", password := "hc", is_admin := false }

/-- A sample admin account. -/
def uRoot : User := { username := "root", password := "hr", is_admin := true }

/-- C7 counterexample: with one non-admin account "carol" on file,
`admin_login` for unknown user "dave" answers "Invalid username or password"
while `admin_login` for existing user "carol" with a wrong password answers
"This account does not have admin access." — distinct observable outcomes
that reveal the username exists. -/
theorem c7_counterexample :
    getUser [uCarol] "dave" = none ∧
    (getUser [uCarol] "carol").isSome = true ∧
    (admin_login [uCarol] rejectAllHash "dave" "pw" "").flash
      = some "Invalid username or password" ∧
    (admin_login [uCarol] rejectAllHash "carol" "pw" "").flash
      = some "This account does not have admin access." ∧
    admin_login [uCarol] rejectAllHash "dave" "pw" ""
      ≠ admin_login [uCarol] rejectAllHash "carol" "pw" "" := by decide

/-- C7 (amended): `user_login` never reveals whether the username existed —
for nonempty credentials, an unknown username and an existing username with a
non-matching password yield the same observable outcome; `admin_login`
matches this only when the existing account is an admin.  (For an existing
non-admin account, `admin_login` emits the distinct "no admin access" flash
before ever checking the password.) -/
theorem c7_login_indistinguishability (users : List User)
    (checkHash : String → String → Bool) (u1 u2 p1 p2 nextParam : String)
    (h1 : getUser users u1 = none)
    (h2 : ∀ row, getUser users u2 = some row →
      checkHash row.password p2 = false)
    (hu1 : u1 ≠ "") (hp1 : p1 ≠ "") (hu2 : u2 ≠ "") (hp2 : p2 ≠ "") :
    user_login users checkHash u1 p1 nextParam
      = user_login users checkHash u2 p2 nextParam ∧
    ((∀ row, getUser users u2 = some row → row.is_admin = true) →
      admin_login users checkHash u1 p1 nextParam
        = admin_login users checkHash u2 p2 nextParam) := by
  constructor
  · unfold user_login
    rw [if_neg (not_or.mpr ⟨hu1, hp1⟩), if_neg (not_or.mpr ⟨hu2, hp2⟩), h1]
    cases hrow : getUser users u2 with
    | none => rfl
    | some row =>
      simp [h2 row hrow]
  · intro hadmin
    unfold admin_login
    rw [if_neg (not_or.mpr ⟨hu1, hp1⟩), if_neg (not_or.mpr ⟨hu2, hp2⟩), h1]
    cases hrow : getUser users u2 with
    | none => rfl
    | some row =>
      simp [hadmin row hrow, h2 row hrow]

/-- Witness for the amended C7: with one admin account "root" on file,
unknown user "dave" and admin "root" with a wrong password are observably
identical on both login pages. -/
theorem c7_witness :
    user_login [uRoot] rejectAllHash "dave" "x" ""
      = user_login [uRoot] rejectAllHash "root" "y" "" ∧
    admin_login [uRoot] rejectAllHash "dave" "x" ""
      = admin_login [uRoot] rejectAllHash "root" "y" "" := by
  have h := c7_login_indistinguishability [uRoot] rejectAllHash "dave" "root"
    "x" "y" "" (by decide) (fun _ _ => rfl) (by decide) (by decide)
    (by decide) (by decide)
  refine ⟨h.1, h.2 ?_⟩
  intro row hrow
  rw [show getUser [uRoot] ("root") = some uRoot from by decide] at hrow
  injection hrow with hr
  rw [← hr]
  rfl

/-- The characters after the last `'.'` of the list (Python
`filename.rsplit('.', 1)[1]`); `none` when no dot occurs (Python
`'.' in filename` is false). -/
def lastExt : List Char → Option (List Char)
  | [] => none
  | c :: cs =>
    match lastExt cs with
    | some e => some e
    | none => if c = '.' then some cs else none

/-- `allowed_file` (`app.py`): the filename contains a dot and the lowercased
text after its last dot is one of the allowed extensions. -/
def allowed_file (filename : String) : Bool :=
  match lastExt filename.data with
  | none => false
  | some ext => ALLOWED_EXTENSIONS.contains (String.mk (ext.map Char.toLower))

/-- Server-side state touched by the upload handler: the upload folder's
contents (a set of stored paths) and the jobs table. -/
structure UploadState where
  files : List String
  jobs : List Job
deriving Repr, DecidableEq

/-- Caller-observable outcome of the POST branch of `index` (`app.py`): each
flash/redirect pair, or the 200 QR response carrying the token. -/
inductive UploadResult where
  | notLoggedIn
  | noFile
  | invalidType
  | saveError
  | createError
  | ok (token : String)
deriving Repr, DecidableEq

/-- `uploaded_file.save(path)`: afterwards the disk holds exactly one file at
`path` (an existing file at that path is overwritten). -/
def saveFile (files : List String) (path : String) : List String :=
  if files.contains path then files else files ++ [path]

/-- `os.remove(path)`. -/
def removeFile (files : List String) (path : String) : List String :=
  files.filter (fun q => q != path)

/-- The POST branch of `index` (`app.py`): requires a logged-in session,
validates presence and type of the file, saves it, creates the job row
(deleting the saved file again if creation fails), then optionally simulates
payment.  The source's failure injection points (`uploaded_file.save`
raising, `create_job_entry` raising) are the booleans `saveOk`/`createOk`;
the generated token, the chosen storage path and the clock are explicit
parameters. -/
def index_post (st : UploadState) (sessUser : Option String)
    (file : Option String) (path : String) (saveOk createOk : Bool)
    (token : String) (now : Nat) (simulatePayment : Bool) :
    UploadState × UploadResult :=
  match sessUser with
  | none => (st, .notLoggedIn)
  | some username =>
    match file with
    | none => (st, .noFile)
    | some fname =>
      if fname = "" then (st, .noFile)
      else if !allowed_file fname then (st, .invalidType)
      else if !saveOk then (st, .saveError)
      else
        let files1 := saveFile st.files path
        if !createOk then
          ({ files := removeFile files1 path, jobs := st.jobs }, .createError)
        else
          let jobs1 :=
            create_job_entry st.jobs token fname path now (some username)
          let jobs2 := if simulatePayment then mark_paid jobs1 token else jobs1
          ({ files := files1, jobs := jobs2 }, .ok token)

theorem removeFile_not_mem (files : List String) (path : String) :
    path ∉ removeFile files path := by
  intro h
  rcases List.mem_filter.mp h with ⟨-, hbne⟩
  simp at hbne

/-- C8: if `create_job_entry` fails after the uploaded file was written, the
handler deletes the just-written file before reporting the error: the path is
absent from the resulting disk state, no job row was recorded, and the
outcome is the distinct create-error response. -/
theorem c8_compensating_delete (st : UploadState) (u : String)
    (fname path token : String) (now : Nat) (sim : Bool)
    (hfname : fname ≠ "") (hallowed : allowed_file fname = true) :
    path ∉ (index_post st (some u) (some fname) path true false token now
      sim).1.files ∧
    (index_post st (some u) (some fname) path true false token now
      sim).1.jobs = st.jobs ∧
    (index_post st (some u) (some fname) path true false token now sim).2
      = UploadResult.createError := by
  simp only [index_post, if_neg hfname, hallowed, Bool.not_true,
    Bool.false_eq_true, if_false, Bool.not_false, if_true]
  exact ⟨removeFile_not_mem _ path, by trivial, by trivial⟩

/-- Witness for C8 on a concrete upload. -/
theorem c8_witness :
    "/up/1_x_a.pdf" ∉ (index_post { files := [], jobs := [] } (some "alice")
      (some "a.pdf") "/up/1_x_a.pdf" true false "tN" 7 true).1.files ∧
    (index_post { files := [], jobs := [] } (some "alice") (some "a.pdf")
      "/up/1_x_a.pdf" true false "tN" 7 true).1.jobs = [] ∧
    (index_post { files := [], jobs := [] } (some "alice") (some "a.pdf")
      "/up/1_x_a.pdf" true false "tN" 7 true).2 = UploadResult.createError :=
  c8_compensating_delete { files := [], jobs := [] } "alice" "a.pdf"
    "/up/1_x_a.pdf" "tN" 7 true (by decide) (by decide)

/-- C9: with `SIMULATE_PAYMENT` set (its `config.py` value), a successful
upload marks the freshly created job paid immediately: the outcome carries
the token, the stored row has `paid = true`, and the token already resolves
for print (no explicit pay call) at any time up to `expires_at`. -/
theorem c9_simulate_payment_autopaid (st : UploadState) (u : String)
    (fname path token : String) (now now2 : Nat)
    (hfname : fname ≠ "") (hallowed : allowed_file fname = true)
    (hfresh : getJob st.jobs token = none)
    (hnow : now2 ≤ now + TOKEN_EXPIRY) :
    (index_post st (some u) (some fname) path true true token now
      SIMULATE_PAYMENT).2 = UploadResult.ok token ∧
    (getJob (index_post st (some u) (some fname) path true true token now
      SIMULATE_PAYMENT).1.jobs token).map Job.paid = some true ∧
    file_by_token (index_post st (some u) (some fname) path true true token
      now SIMULATE_PAYMENT).1.jobs token now2 = ResolveResult.ok path := by
  have hget : getJob (mark_paid (create_job_entry st.jobs token fname path
      now (some u)) token) token
      = some { token := token, filename := fname, filepath := path,
               uploaded_at := now, paid := true, printed := false,
               expires_at := now + TOKEN_EXPIRY,
               owner_username := some u } := by
    rw [getJob_mark_paid, getJob_create st.jobs token fname path now
      (some u) hfresh]
    rfl
  simp only [index_post, if_neg hfname, hallowed, Bool.not_true,
    Bool.false_eq_true, if_false, Bool.not_false, if_true, SIMULATE_PAYMENT]
  refine ⟨by trivial, ?_, ?_⟩
  · rw [hget]
    rfl
  · simp [file_by_token, hget, Nat.not_lt.mpr hnow]

/-- Witness for C9 on a concrete upload: the token resolves with no pay
call. -/
theorem c9_witness :
    (index_post { files := [], jobs := [] } (some "alice") (some "a.pdf")
      "/up/2_y_a.pdf" true true "tS" 7 SIMULATE_PAYMENT).2
      = UploadResult.ok "tS" ∧
    (getJob (index_post { files := [], jobs := [] } (some "alice")
      (some "a.pdf") "/up/2_y_a.pdf" true true "tS" 7
      SIMULATE_PAYMENT).1.jobs "tS").map Job.paid = some true ∧
    file_by_token (index_post { files := [], jobs := [] } (some "alice")
      (some "a.pdf") "/up/2_y_a.pdf" true true "tS" 7
      SIMULATE_PAYMENT).1.jobs "tS" 100 = ResolveResult.ok "/up/2_y_a.pdf" :=
  c9_simulate_payment_autopaid { files := [], jobs := [] } "alice" "a.pdf"
    "/up/2_y_a.pdf" "tS" 7 100 (by decide) (by decide) rfl (by decide)

end QRPrint
